import Mathlib

/-!
Formal model of the `dltemplate` repository, whose only source files are the
BERT notebook `src/text_classification_benchmarks/notebooks/BERT.ipynb` and a
README.  The notebook is a linear sequence of code cells; we embed each code
cell as a list of statements in a small Python-fragment syntax (`NbStmt`),
transcribed cell by cell from the notebook source.  Nested call expressions
are flattened into named temporaries in evaluation order (e.g. the inline
`tf.contrib.tpu.TPUConfig(...)` argument of `RunConfig`), which preserves the
sequence of library operations performed.

The two per-utterance prediction loops (over `val_lines[:max_api_calls]` and
`test_lines[:200]`) are additionally given an executable state-passing
semantics (`valStep` / `testStep` folded over the row list), with the
`predict` method of the estimator abstracted as an arbitrary function from utterance text
to a predicted label id, since the model itself lives in the external `bert`
library.
-/

/-- A Python value / expression atom as it appears in the notebook:
string and integer literals, a float literal kept as its source text,
booleans, `None`, and references to variables (dotted or subscripted
expressions are kept as their source text). -/
inductive PyVal where
  | str (s : String)
  | int (n : Nat)
  | floatTag (s : String)
  | bool (b : Bool)
  | pyNone
  | var (x : String)
  deriving Repr, DecidableEq

/-- A statement of the notebook, at the granularity the claims need.
`libCall tgt recv m pos kw` is `tgt = recv.m(pos..., kw...)` (with `recv = ""`
for bare calls of imported functions); `openCsv r p` is
`with tf.gfile.Open(p) as f: r = csv.reader(f)`; `forSeq vs src sl body` is
`for vs in src[:sl]: body` (no slice when `sl = none`); `ifNe a b body` is
`if a != b: body`; `printCond t e a b` is `print(t if a == b else e)`.
The constructors `defFun`, `defClass`, `setAttr`, `spawnThread` and
`spawnProcess` cover statement forms the claims assert to be absent. -/
inductive NbStmt where
  | importModule (name : String) (asName : Option String)
  | importFrom (module : String) (names : List String)
  | sysPathAppend (path : String)
  | assignLit (name : String) (v : PyVal)
  | assignVar (name src : String)
  | mkList (name : String) (elems : List PyVal)
  | libCall (target : Option String) (recv method : String)
      (pos : List PyVal) (kw : List (String × PyVal))
  | openCsv (reader : String) (path : PyVal)
  | printStmt (args : List PyVal)
  | printCond (thenStr elseStr : String) (lhs rhs : String)
  | appendVar (listName value : String)
  | incr (name : String)
  | forSeq (vars : List String) (source : String) (slice : Option PyVal)
      (body : List NbStmt)
  | ifNe (lhs rhs : String) (body : List NbStmt)
  | defFun (name : String)
  | defClass (name : String)
  | setAttr (obj attr : String)
  | spawnThread
  | spawnProcess

/-- Cell 1: `import csv` / `import numpy as np` / `import os` / `import sys` /
`import tensorflow as tf`. -/
def cell01 : List NbStmt :=
  [ .importModule "csv" none,
    .importModule "numpy" (some "np"),
    .importModule "os" none,
    .importModule "sys" none,
    .importModule "tensorflow" (some "tf") ]

/-- Cell 2: the two `sys.path.append` calls. -/
def cell02 : List NbStmt :=
  [ .sysPathAppend "/Users/d777710/src/bert",
    .sysPathAppend "../.." ]

/-- Cell 3: `from text_classification_benchmarks.metrics import perf_summary,
print_perf_summary`. -/
def cell03 : List NbStmt :=
  [ .importFrom "text_classification_benchmarks.metrics"
      ["perf_summary", "print_perf_summary"] ]

/-- Cell 4: the four directory-constant assignments. -/
def cell04 : List NbStmt :=
  [ .assignLit "DATA_DIR"
      (.str "/Users/d777710/src/DeepLearning/dltemplate/src/text_classification_benchmarks/fastai"),
    .assignLit "BERT_BASE_DIR"
      (.str "/Users/d777710/src/DeepLearning/dltemplate/pretrained_models/bert/uncased_L-12_H-768_A-12"),
    .assignLit "CODI_BERT_MODEL" (.str "/Users/d777710/src/bert/codiout2"),
    .assignLit "OUTPUT_DIR" (.str "/tmp/output") ]

/-- Cell 5: `import modeling` / `import run_classifier as clf` /
`import tokenization`. -/
def cell05 : List NbStmt :=
  [ .importModule "modeling" none,
    .importModule "run_classifier" (some "clf"),
    .importModule "tokenization" none ]

/-- Cell 6: `tf.logging.set_verbosity(tf.logging.FATAL)`. -/
def cell06 : List NbStmt :=
  [ .libCall none "tf.logging" "set_verbosity" [.var "tf.logging.FATAL"] [] ]

/-- Cell 7: `max_api_calls = 200`. -/
def cell07 : List NbStmt := [ .assignLit "max_api_calls" (.int 200) ]

/-- Cell 8: `config_file = os.path.join(BERT_BASE_DIR, ...)` with `bert_config.json`;
`bert_config = modeling.BertConfig.from_json_file(config_file)`. -/
def cell08 : List NbStmt :=
  [ .libCall (some "config_file") "os.path" "join"
      [.var "BERT_BASE_DIR", .str "bert_config.json"] [],
    .libCall (some "bert_config") "modeling.BertConfig" "from_json_file"
      [.var "config_file"] [] ]

/-- Cell 9: `processor = clf.CsvProcessor()`. -/
def cell09 : List NbStmt := [ .libCall (some "processor") "clf" "CsvProcessor" [] [] ]

/-- Cell 10: `label_list = processor.get_labels(DATA_DIR)`. -/
def cell10 : List NbStmt :=
  [ .libCall (some "label_list") "processor" "get_labels" [.var "DATA_DIR"] [] ]

/-- Cell 11: `vocab_file = os.path.join(BERT_BASE_DIR, ...)` with `vocab.txt`;
`tokenizer = tokenization.FullTokenizer(vocab_file=vocab_file,
do_lower_case=True)`. -/
def cell11 : List NbStmt :=
  [ .libCall (some "vocab_file") "os.path" "join"
      [.var "BERT_BASE_DIR", .str "vocab.txt"] [],
    .libCall (some "tokenizer") "tokenization" "FullTokenizer" []
      [("vocab_file", .var "vocab_file"), ("do_lower_case", .bool true)] ]

/-- Cell 12: `init_checkpoint = CODI_BERT_MODEL`; the
`clf.model_fn_builder(...)` call with `num_train_steps=None` and
`num_warmup_steps=None`. -/
def cell12 : List NbStmt :=
  [ .assignVar "init_checkpoint" "CODI_BERT_MODEL",
    .libCall (some "model_fn") "clf" "model_fn_builder" []
      [("bert_config", .var "bert_config"),
       ("num_labels", .var "len(label_list)"),
       ("init_checkpoint", .var "init_checkpoint"),
       ("learning_rate", .floatTag "5e-5"),
       ("num_train_steps", .pyNone),
       ("num_warmup_steps", .pyNone),
       ("use_tpu", .bool false),
       ("use_one_hot_embeddings", .bool false)] ]

/-- Cell 13: `is_per_host = tf.contrib.tpu.InputPipelineConfig.PER_HOST_V2`
and `run_config = tf.contrib.tpu.RunConfig(...)`; the inline
`tf.contrib.tpu.TPUConfig(...)` argument is flattened to the temporary
`tpu_config` in evaluation order. -/
def cell13 : List NbStmt :=
  [ .assignVar "is_per_host" "tf.contrib.tpu.InputPipelineConfig.PER_HOST_V2",
    .libCall (some "tpu_config") "tf.contrib.tpu" "TPUConfig" []
      [("iterations_per_loop", .int 1000), ("num_shards", .int 8),
       ("per_host_input_for_training", .var "is_per_host")],
    .libCall (some "run_config") "tf.contrib.tpu" "RunConfig" []
      [("cluster", .pyNone), ("model_dir", .var "OUTPUT_DIR"),
       ("save_checkpoints_steps", .int 1000),
       ("tpu_config", .var "tpu_config")] ]

/-- Cell 14: `estimator = tf.contrib.tpu.TPUEstimator(...)`. -/
def cell14 : List NbStmt :=
  [ .libCall (some "estimator") "tf.contrib.tpu" "TPUEstimator" []
      [("use_tpu", .bool false), ("model_fn", .var "model_fn"),
       ("config", .var "run_config"), ("train_batch_size", .int 32),
       ("eval_batch_size", .int 8), ("predict_batch_size", .int 1)] ]

/-- Cell 15: `max_seq_length = 128`. -/
def cell15 : List NbStmt := [ .assignLit "max_seq_length" (.int 128) ]

/-- Cell 16: the `sample_utterance` string assignment. -/
def cell16 : List NbStmt :=
  [ .assignLit "sample_utterance" (.str "How long do I have left on my plan") ]

/-- Cell 17: build one `InputExample` from the sample utterance and convert
it to features; the nested `tokenization.convert_to_unicode(...)` and
`clf.InputExample(...)` arguments are flattened to temporaries `u` and `e`. -/
def cell17 : List NbStmt :=
  [ .libCall (some "u") "tokenization" "convert_to_unicode"
      [.var "sample_utterance"] [],
    .libCall (some "e") "clf" "InputExample" []
      [("guid", .int 1), ("text_a", .var "u")],
    .mkList "examples" [.var "e"],
    .libCall (some "features") "clf" "convert_examples_to_features"
      [.var "examples", .var "label_list"]
      [("max_seq_length", .var "max_seq_length"), ("tokenizer", .var "tokenizer")] ]

/-- Cell 18: `input_fn = clf.input_fn_builder(...)`. -/
def cell18 : List NbStmt :=
  [ .libCall (some "input_fn") "clf" "input_fn_builder" []
      [("features", .var "features"), ("seq_length", .var "max_seq_length"),
       ("is_training", .bool false), ("drop_remainder", .bool false)] ]

/-- Cell 19: `result = estimator.predict(input_fn=input_fn)`. -/
def cell19 : List NbStmt :=
  [ .libCall (some "result") "estimator" "predict" [] [("input_fn", .var "input_fn")] ]

/-- Cell 20: the three relative data-file path assignments. -/
def cell20 : List NbStmt :=
  [ .assignLit "val_csv" (.str "../fastai/val.csv"),
    .assignLit "test_csv" (.str "../fastai/test.csv"),
    .assignLit "classes_txt" (.str "../fastai/classes.txt") ]

/-- Cell 21: `classes = np.genfromtxt(classes_txt, dtype=str)`. -/
def cell21 : List NbStmt :=
  [ .libCall (some "classes") "np" "genfromtxt" [.var "classes_txt"]
      [("dtype", .var "str")] ]

/-- Cell 22: `for label in result: print(classes[label])`. -/
def cell22 : List NbStmt :=
  [ .forSeq ["label"] "result" none [ .printStmt [.var "classes[label]"] ] ]

/-- Cell 23: read `val_csv` into `val_lines` via `tf.gfile.Open` and
`csv.reader`. -/
def cell23 : List NbStmt :=
  [ .mkList "val_lines" [],
    .openCsv "reader" (.var "val_csv"),
    .forSeq ["line"] "reader" none [ .appendVar "val_lines" "line" ] ]

/-- Cell 24: the validation prediction loop over
`val_lines[:max_api_calls]`; `pred = next(estimator.predict(...))` keeps its
`estimator.predict` call, and `y_true = int(label)` is the bare `int` call. -/
def cell24 : List NbStmt :=
  [ .mkList "y_val" [],
    .mkList "y_val_pred" [],
    .assignLit "incorrect" (.int 0),
    .forSeq ["label", "utterance"] "val_lines" (some (.var "max_api_calls"))
      [ .libCall (some "y_true") "" "int" [.var "label"] [],
        .appendVar "y_val" "y_true",
        .libCall (some "u") "tokenization" "convert_to_unicode" [.var "utterance"] [],
        .libCall (some "e") "clf" "InputExample" []
          [("guid", .int 1), ("text_a", .var "u")],
        .mkList "examples" [.var "e"],
        .libCall (some "features") "clf" "convert_examples_to_features"
          [.var "examples", .var "label_list"]
          [("max_seq_length", .var "max_seq_length"), ("tokenizer", .var "tokenizer")],
        .libCall (some "input_fn") "clf" "input_fn_builder" []
          [("features", .var "features"), ("seq_length", .var "max_seq_length"),
           ("is_training", .bool false), ("drop_remainder", .bool false)],
        .libCall (some "pred") "estimator" "predict" [] [("input_fn", .var "input_fn")],
        .appendVar "y_val_pred" "pred",
        .ifNe "pred" "y_true"
          [ .printStmt [.str "Utterance:", .var "utterance"],
            .printStmt [.str "Actual   :", .var "classes[int(label)]"],
            .printStmt [.str "Pred     :", .var "classes[int(pred)]"],
            .printCond ":)" ":(" "int(label)" "int(pred)",
            .printStmt [.str ""],
            .incr "incorrect" ] ] ]

/-- Cell 25: print the dev-set performance summary. -/
def cell25 : List NbStmt :=
  [ .printStmt [.str "Dev set performance:"],
    .libCall (some "stats") "" "perf_summary" [.var "y_val", .var "y_val_pred"] [],
    .libCall none "" "print_perf_summary" [.var "stats"] [("rounded", .int 2)] ]

/-- Cell 26: read `test_csv` into `test_lines`. -/
def cell26 : List NbStmt :=
  [ .mkList "test_lines" [],
    .openCsv "reader" (.var "test_csv"),
    .forSeq ["line"] "reader" none [ .appendVar "test_lines" "line" ] ]

/-- Cell 27: the test prediction loop over `test_lines[:200]`, printing every
utterance unconditionally. -/
def cell27 : List NbStmt :=
  [ .mkList "y_test" [],
    .mkList "y_test_pred" [],
    .forSeq ["label", "utterance"] "test_lines" (some (.int 200))
      [ .libCall (some "y_true") "" "int" [.var "label"] [],
        .appendVar "y_test" "y_true",
        .libCall (some "u") "tokenization" "convert_to_unicode" [.var "utterance"] [],
        .libCall (some "e") "clf" "InputExample" []
          [("guid", .int 1), ("text_a", .var "u")],
        .mkList "examples" [.var "e"],
        .libCall (some "features") "clf" "convert_examples_to_features"
          [.var "examples", .var "label_list"]
          [("max_seq_length", .var "max_seq_length"), ("tokenizer", .var "tokenizer")],
        .libCall (some "input_fn") "clf" "input_fn_builder" []
          [("features", .var "features"), ("seq_length", .var "max_seq_length"),
           ("is_training", .bool false), ("drop_remainder", .bool false)],
        .libCall (some "pred") "estimator" "predict" [] [("input_fn", .var "input_fn")],
        .appendVar "y_test_pred" "pred",
        .printStmt [.str "Utterance:", .var "utterance"],
        .printStmt [.str "Actual   :", .var "classes[int(label)]"],
        .printStmt [.str "Pred     :", .var "classes[int(pred)]"],
        .printCond ":)" ":(" "int(label)" "int(pred)",
        .printStmt [.str ""] ] ]

/-- Cell 28: print the test-set performance summary. -/
def cell28 : List NbStmt :=
  [ .printStmt [.str "Test set performance:"],
    .libCall (some "stats") "" "perf_summary" [.var "y_test", .var "y_test_pred"] [],
    .libCall none "" "print_perf_summary" [.var "stats"] [("rounded", .int 2)] ]

/-- Cell 29: `eval_examples = processor.get_dev_examples(DATA_DIR)` and the
positional `convert_examples_to_features` call. -/
def cell29 : List NbStmt :=
  [ .libCall (some "eval_examples") "processor" "get_dev_examples" [.var "DATA_DIR"] [],
    .libCall (some "eval_features") "clf" "convert_examples_to_features"
      [.var "eval_examples", .var "label_list", .var "max_seq_length", .var "tokenizer"] [] ]

/-- Cell 30: build `eval_input_fn` and run
`estimator.evaluate(input_fn=eval_input_fn, steps=None)`. -/
def cell30 : List NbStmt :=
  [ .libCall (some "eval_input_fn") "clf" "input_fn_builder" []
      [("features", .var "eval_features"), ("seq_length", .var "max_seq_length"),
       ("is_training", .bool false), ("drop_remainder", .bool false)],
    .libCall (some "eval_result") "estimator" "evaluate" []
      [("input_fn", .var "eval_input_fn"), ("steps", .pyNone)] ]

/-- Cell 31: print the sorted `eval_result` metric entries. -/
def cell31 : List NbStmt :=
  [ .forSeq ["key"] "sorted(eval_result.keys())" none
      [ .printStmt [.var "key", .var "eval_result[key]"] ] ]

/-- Cell 32: `test_examples = processor.get_test_examples(DATA_DIR)` and the
positional `convert_examples_to_features` call. -/
def cell32 : List NbStmt :=
  [ .libCall (some "test_examples") "processor" "get_test_examples" [.var "DATA_DIR"] [],
    .libCall (some "test_features") "clf" "convert_examples_to_features"
      [.var "test_examples", .var "label_list", .var "max_seq_length", .var "tokenizer"] [] ]

/-- Cell 33: build `test_input_fn` and run
`estimator.evaluate(input_fn=test_input_fn, steps=None)`. -/
def cell33 : List NbStmt :=
  [ .libCall (some "test_input_fn") "clf" "input_fn_builder" []
      [("features", .var "test_features"), ("seq_length", .var "max_seq_length"),
       ("is_training", .bool false), ("drop_remainder", .bool false)],
    .libCall (some "test_result") "estimator" "evaluate" []
      [("input_fn", .var "test_input_fn"), ("steps", .pyNone)] ]

/-- Cell 34: print the sorted `test_result` metric entries. -/
def cell34 : List NbStmt :=
  [ .forSeq ["key"] "sorted(test_result.keys())" none
      [ .printStmt [.var "key", .var "test_result[key]"] ] ]

/-- The BERT notebook: its code cells in document order (the trailing empty
cell is omitted). -/
def bertNotebook : List (List NbStmt) :=
  [ cell01, cell02, cell03, cell04, cell05, cell06, cell07, cell08, cell09,
    cell10, cell11, cell12, cell13, cell14, cell15, cell16, cell17, cell18,
    cell19, cell20, cell21, cell22, cell23, cell24, cell25, cell26, cell27,
    cell28, cell29, cell30, cell31, cell32, cell33, cell34 ]

/-- Flatten a statement into itself followed by its sub-statements (loop and
conditional bodies), in source order; the header keeps an empty body.  The
fuel bound exceeds the maximal nesting depth of the notebook, so on the notebook
this is exact. -/
def flattenFuel (fuel : Nat) (s : NbStmt) : List NbStmt :=
  match fuel, s with
  | Nat.succ f, NbStmt.forSeq vs src sl body =>
      NbStmt.forSeq vs src sl [] :: body.flatMap (flattenFuel f)
  | Nat.succ f, NbStmt.ifNe a b body =>
      NbStmt.ifNe a b [] :: body.flatMap (flattenFuel f)
  | _, t => [t]

/-- All statements of the notebook, flattened, in source order. -/
def allStmts : List NbStmt := (bertNotebook.flatten).flatMap (flattenFuel 8)

/-- Boolean string-prefix test (on the underlying character lists). -/
def pfx (pre s : String) : Bool := pre.toList.isPrefixOf s.toList

/-- Resolve a Python atom to a string value under an environment of
string-valued variables. -/
def resolveStrV (env : List (String × String)) : PyVal → Option String
  | .str s => some s
  | .var x => env.lookup x
  | _ => none

/-- Extend the string environment with one statement: string-literal
assignments, variable copies, and `os.path.join` of resolvable parts. -/
def extendStrEnv (env : List (String × String)) (s : NbStmt) : List (String × String) :=
  match s with
  | .assignLit x (.str v) => (x, v) :: env
  | .assignVar x y =>
      match env.lookup y with
      | some v => (x, v) :: env
      | none => env
  | .libCall (some t) "os.path" "join" [a, b] [] =>
      match resolveStrV env a, resolveStrV env b with
      | some v1, some v2 => (t, v1 ++ "/" ++ v2) :: env
      | _, _ => env
  | _ => env

/-- The string-valued variables of the notebook after executing all cells
(every such variable is assigned exactly once). -/
def strEnv : List (String × String) := allStmts.foldl extendStrEnv []

/-- The integer-valued variables of the notebook (literal assignments). -/
def natEnv : List (String × Nat) :=
  allStmts.foldl
    (fun env s =>
      match s with
      | .assignLit x (.int n) => (x, n) :: env
      | _ => env) []

/-- Resolve a Python atom to a natural number under `natEnv`. -/
def resolveNatV : PyVal → Option Nat
  | .int n => some n
  | .var x => natEnv.lookup x
  | _ => none

/-- The path expressions a statement reads from the filesystem:
`tf.gfile.Open` (via `openCsv`), `np.genfromtxt`, `BertConfig.from_json_file`,
the `CsvProcessor` data-directory reads, and the tokenizer vocabulary. -/
def readTargets : NbStmt → List PyVal
  | .openCsv _ p => [p]
  | .libCall _ recv m pos kw =>
      if recv == "np" && m == "genfromtxt" then pos.take 1
      else if recv == "modeling.BertConfig" && m == "from_json_file" then pos.take 1
      else if recv == "processor" &&
          (m == "get_labels" || m == "get_dev_examples" || m == "get_test_examples") then
        pos.take 1
      else if recv == "tokenization" && m == "FullTokenizer" then
        match kw.lookup "vocab_file" with
        | some v => [v]
        | none => []
      else []
  | _ => []

/-- All file paths the notebook reads, resolved through `strEnv`. -/
def filesRead : List String :=
  allStmts.flatMap (fun s => (readTargets s).filterMap (resolveStrV strEnv))

/-- The arguments of the `sys.path.append` calls of the notebook, in order. -/
def sysPathAppends : List String :=
  allStmts.filterMap (fun s =>
    match s with
    | .sysPathAppend p => some p
    | _ => none)

/-- The module names of the plain module-import statements, in order. -/
def importedModuleNames : List String :=
  allStmts.filterMap (fun s =>
    match s with
    | .importModule n _ => some n
    | _ => none)

/-- The from-import statements of the notebook, in order. -/
def importedFromPairs : List (String × List String) :=
  allStmts.filterMap (fun s =>
    match s with
    | .importFrom m ns => some (m, ns)
    | _ => none)

/-- Names of functions or classes defined by the notebook itself. -/
def definedNames : List String :=
  allStmts.filterMap (fun s =>
    match s with
    | .defFun n => some n
    | .defClass n => some n
    | _ => none)

/-- The methods the notebook invokes on the `estimator` object, in order
(loop bodies included once, in place). -/
def estimatorMethods : List String :=
  allStmts.filterMap (fun s =>
    match s with
    | .libCall _ recv m _ _ => if recv == "estimator" then some m else none
    | _ => none)

/-- The `(num_train_steps, num_warmup_steps)` keyword arguments of every
`clf.model_fn_builder` call. -/
def modelFnTrainArgs : List (Option PyVal × Option PyVal) :=
  allStmts.filterMap (fun s =>
    match s with
    | .libCall _ recv m _ kw =>
        if recv == "clf" && m == "model_fn_builder" then
          some (kw.lookup "num_train_steps", kw.lookup "num_warmup_steps")
        else none
    | _ => none)

/-- Statement forms that define or mutate the internals of a component: function
or class definitions and attribute assignments. -/
def mutatesInternals : NbStmt → Bool
  | .defFun _ => true
  | .defClass _ => true
  | .setAttr _ _ => true
  | _ => false

/-- Statement forms that start a thread or a process. -/
def isSpawnStmt : NbStmt → Bool
  | .spawnThread => true
  | .spawnProcess => true
  | _ => false

/-- The kinds of processing step the specification names, plus the two kinds
the notebook additionally performs (input data loading and non-metric
printing). -/
inductive ProcKind where
  | loadConfigK
  | buildModelK
  | convertK
  | predictEvalK
  | printMetricsK
  | loadDataK
  | printOutK
  deriving Repr, DecidableEq, BEq

/-- Classify a statement as a processing step; `none` for setup statements
(imports, literal assignments, path manipulation, logging configuration,
helper-object construction, list bookkeeping). -/
def classifyStep : NbStmt → Option ProcKind
  | .libCall _ recv m _ _ =>
      if recv == "modeling.BertConfig" && m == "from_json_file" then some .loadConfigK
      else if recv == "tf.contrib.tpu" then some .buildModelK
      else if recv == "clf" && m == "model_fn_builder" then some .buildModelK
      else if recv == "clf" &&
          (m == "convert_examples_to_features" || m == "input_fn_builder") then
        some .convertK
      else if recv == "estimator" then some .predictEvalK
      else if recv == "processor" &&
          (m == "get_labels" || m == "get_dev_examples" || m == "get_test_examples") then
        some .loadDataK
      else if recv == "np" && m == "genfromtxt" then some .loadDataK
      else if recv == "" && (m == "perf_summary" || m == "print_perf_summary") then
        some .printMetricsK
      else none
  | .openCsv _ _ => some .loadDataK
  | .printStmt _ => some .printOutK
  | .printCond _ _ _ _ => some .printOutK
  | _ => none

/-- The processing steps of the notebook in source order (loop bodies inline). -/
def procSeq : List ProcKind := allStmts.filterMap classifyStep

/-- Merge consecutive equal entries of a list. -/
def collapseRuns : List ProcKind → List ProcKind
  | [] => []
  | [k] => [k]
  | k :: k2 :: rest =>
      if k == k2 then collapseRuns (k2 :: rest) else k :: collapseRuns (k2 :: rest)

/-- The five processing-step kinds claimed by the specification, in the
claimed order. -/
def specC2Steps : List ProcKind :=
  [.loadConfigK, .buildModelK, .convertK, .predictEvalK, .printMetricsK]

/-- Claim C2 as stated: the notebook performs exactly the five specification
steps, in that order, and no processing step of any other kind. -/
def claimC2stated : Bool :=
  collapseRuns procSeq == specC2Steps && procSeq.all (fun k => specC2Steps.contains k)

/-- The `max_seq_length` argument of a feature-conversion call: the
`max_seq_length` keyword or third positional argument of
`convert_examples_to_features`, or the `seq_length` keyword of
`input_fn_builder`. -/
def maxSeqArg : NbStmt → Option PyVal
  | .libCall _ recv m pos kw =>
      if recv == "clf" && m == "convert_examples_to_features" then
        match kw.lookup "max_seq_length" with
        | some v => some v
        | none => pos.get? 2
      else if recv == "clf" && m == "input_fn_builder" then kw.lookup "seq_length"
      else none
  | _ => none

/-- Every feature-conversion call in the notebook fixes the sequence length
to 128. -/
def convertsUse128 : Bool :=
  allStmts.all (fun s =>
    match maxSeqArg s with
    | some v => resolveNatV v == some 128
    | none => true)

/-- The resolved path arguments of `BertConfig.from_json_file` calls. -/
def configFilesLoaded : List String :=
  allStmts.filterMap (fun s =>
    match s with
    | .libCall _ recv m pos _ =>
        if recv == "modeling.BertConfig" && m == "from_json_file" then
          pos.head?.bind (resolveStrV strEnv)
        else none
    | _ => none)

/-- Root directory of the repository checkout that the absolute paths of the
notebook point into (taken from the `DATA_DIR` constant of the notebook). -/
def repoRoot : String := "/Users/d777710/src/DeepLearning/dltemplate"

/-- Claim C1 as stated: every file the notebook reads stays inside its own
directory (neither a `../` escape nor an absolute path into another
subdirectory of the repository), and no module of the shared repository
`text_classification_benchmarks` package is imported. -/
def notebookSelfContained : Bool :=
  filesRead.all (fun p => !(pfx "../" p) && !(pfx repoRoot p)) &&
  importedFromPairs.all (fun mp => !(pfx "text_classification_benchmarks" mp.1))

/-- A statement with no control flow and no definitions. -/
def straightLine : NbStmt → Bool
  | .forSeq _ _ _ _ => false
  | .ifNe _ _ _ => false
  | .defFun _ => false
  | .defClass _ => false
  | _ => true

/-- The cell shape of claim C5 as stated: straight-line statements, allowing
for-loops whose bodies are entirely straight-line. -/
def simpleStmt : NbStmt → Bool
  | .forSeq _ _ _ body => body.all straightLine
  | s => straightLine s

/-- Claim C5 as stated: no definitions, and every cell is straight-line code
with at most simple for-loops. -/
def claimC5stated : Bool :=
  definedNames.isEmpty && bertNotebook.all (fun c => c.all simpleStmt)

/-- The amended cell shape: for-loop bodies may additionally contain an
`if x != y:` guard whose body is straight-line. -/
def simpleStmtAmended : NbStmt → Bool
  | .forSeq _ _ _ body =>
      body.all (fun s =>
        match s with
        | .ifNe _ _ b => b.all straightLine
        | t => straightLine t)
  | s => straightLine s

/-- The validation loop iterates over `val_lines` sliced by the variable
`max_api_calls`. -/
def valLoopSlicedByVar : Bool :=
  allStmts.any (fun s =>
    match s with
    | .forSeq _ src (some (.var v)) _ => src == "val_lines" && v == "max_api_calls"
    | _ => false)

/-- The test loop iterates over `test_lines` sliced by the literal 200. -/
def testLoopSlicedBy200 : Bool :=
  allStmts.any (fun s =>
    match s with
    | .forSeq _ src (some (.int n)) _ => src == "test_lines" && n == 200
    | _ => false)

/-- `max_api_calls = 200` (cell 7). -/
def max_api_calls : Nat := 200

/-- The mutable state of a per-utterance prediction loop: the true-label list
(`y_val` resp. `y_test`), the prediction list (`y_val_pred` resp.
`y_test_pred`), the `incorrect` counter (used only by the validation loop)
and the lines printed so far. -/
structure LoopState where
  y : List Int
  y_pred : List Int
  incorrect : Nat
  printed : List String
  deriving Repr, DecidableEq

/-- The state before either loop: empty lists and `incorrect = 0`. -/
def initState : LoopState := ⟨[], [], 0, []⟩

/-- `classes[i]` for a label id (labels in range; Python indexing errors are
outside the scope of the claims). -/
def classAt (classes : List String) (i : Int) : String := classes.getD i.toNat ""

/-- One iteration of the validation prediction loop (cell 24).  The row is a
parsed `(label, utterance)` CSV line, so `y_true = int(label)` is `row.1`;
`predict` abstracts `next(estimator.predict(input_fn=input_fn))` applied to
the features converted from the utterance.  The status line keeps the
conditional expression of the source, `print(a if int(label) == int(pred) else b)` with the two smiley strings. -/
def valStep (classes : List String) (predict : String → Int) (s : LoopState)
    (row : Int × String) : LoopState :=
  let label := row.1
  let utterance := row.2
  let y_true := label
  let pred := predict utterance
  let s2 : LoopState := { s with y := s.y ++ [y_true], y_pred := s.y_pred ++ [pred] }
  if pred ≠ y_true then
    { s2 with
      printed := s2.printed ++
        [ "Utterance: " ++ utterance,
          "Actual   : " ++ classAt classes label,
          "Pred     : " ++ classAt classes pred,
          (if label == pred then ":)" else ":("),
          "" ],
      incorrect := s2.incorrect + 1 }
  else s2

/-- One iteration of the test prediction loop (cell 27): identical
conversion and prediction, but the details are printed unconditionally and no
counter is kept. -/
def testStep (classes : List String) (predict : String → Int) (s : LoopState)
    (row : Int × String) : LoopState :=
  let label := row.1
  let utterance := row.2
  let pred := predict utterance
  { s with
    y := s.y ++ [label],
    y_pred := s.y_pred ++ [pred],
    printed := s.printed ++
      [ "Utterance: " ++ utterance,
        "Actual   : " ++ classAt classes label,
        "Pred     : " ++ classAt classes pred,
        (if label == pred then ":)" else ":("),
        "" ] }

/-- The validation loop: `for label, utterance in val_lines[:max_api_calls]`. -/
def runValLoop (classes : List String) (predict : String → Int)
    (val_lines : List (Int × String)) : LoopState :=
  (val_lines.take max_api_calls).foldl (valStep classes predict) initState

/-- The test loop: `for label, utterance in test_lines[:200]`. -/
def runTestLoop (classes : List String) (predict : String → Int)
    (test_lines : List (Int × String)) : LoopState :=
  (test_lines.take 200).foldl (testStep classes predict) initState

/-- Number of indices at which the prediction list differs from the
true-label list. -/
def mismatchCount (s : LoopState) : Nat :=
  (s.y.zip s.y_pred).countP (fun q => q.1 != q.2)

/-- The lines one validation-loop iteration adds to the printed output. -/
def stepPrinted (classes : List String) (predict : String → Int) (s : LoopState)
    (row : Int × String) : List String :=
  (valStep classes predict s row).printed.drop s.printed.length

/-- The validation-loop invariant: lists of equal length, and the counter
equal to the number of mismatching indices. -/
def loopInv (s : LoopState) : Prop :=
  s.y.length = s.y_pred.length ∧ s.incorrect = mismatchCount s

/-- Python standard-library modules that introduce threads, processes or
asynchronous scheduling. -/
def concurrencyModules : List String :=
  ["threading", "multiprocessing", "subprocess", "asyncio", "concurrent.futures"]

lemma valStep_y (c : List String) (p : String → Int) (s : LoopState)
    (r : Int × String) : (valStep c p s r).y = s.y ++ [r.1] := by
  unfold valStep
  dsimp only
  split <;> rfl

lemma valStep_y_pred (c : List String) (p : String → Int) (s : LoopState)
    (r : Int × String) : (valStep c p s r).y_pred = s.y_pred ++ [p r.2] := by
  unfold valStep
  dsimp only
  split <;> rfl

lemma testStep_y (c : List String) (p : String → Int) (s : LoopState)
    (r : Int × String) : (testStep c p s r).y = s.y ++ [r.1] := rfl

lemma testStep_y_pred (c : List String) (p : String → Int) (s : LoopState)
    (r : Int × String) : (testStep c p s r).y_pred = s.y_pred ++ [p r.2] := rfl

lemma foldl_valStep_y_length (c : List String) (p : String → Int) :
    ∀ (rows : List (Int × String)) (s : LoopState),
      ((rows.foldl (valStep c p) s).y).length = s.y.length + rows.length := by
  intro rows
  induction rows with
  | nil => intro s; simp
  | cons r rs ih =>
      intro s
      simp only [List.foldl_cons, ih, valStep_y, List.length_append, List.length_cons]
      simp
      omega

lemma foldl_valStep_y_pred_length (c : List String) (p : String → Int) :
    ∀ (rows : List (Int × String)) (s : LoopState),
      ((rows.foldl (valStep c p) s).y_pred).length = s.y_pred.length + rows.length := by
  intro rows
  induction rows with
  | nil => intro s; simp
  | cons r rs ih =>
      intro s
      simp only [List.foldl_cons, ih, valStep_y_pred, List.length_append, List.length_cons]
      simp
      omega

lemma foldl_testStep_y_length (c : List String) (p : String → Int) :
    ∀ (rows : List (Int × String)) (s : LoopState),
      ((rows.foldl (testStep c p) s).y).length = s.y.length + rows.length := by
  intro rows
  induction rows with
  | nil => intro s; simp
  | cons r rs ih =>
      intro s
      simp only [List.foldl_cons, ih, testStep_y, List.length_append, List.length_cons]
      simp
      omega

lemma foldl_testStep_y_pred_length (c : List String) (p : String → Int) :
    ∀ (rows : List (Int × String)) (s : LoopState),
      ((rows.foldl (testStep c p) s).y_pred).length = s.y_pred.length + rows.length := by
  intro rows
  induction rows with
  | nil => intro s; simp
  | cons r rs ih =>
      intro s
      simp only [List.foldl_cons, ih, testStep_y_pred, List.length_append, List.length_cons]
      simp
      omega

lemma valStep_preserves_inv (c : List String) (p : String → Int) (s : LoopState)
    (r : Int × String) (h : loopInv s) : loopInv (valStep c p s r) := by
  obtain ⟨hlen, hinc⟩ := h
  have hzip : (s.y ++ [r.1]).zip (s.y_pred ++ [p r.2]) =
      s.y.zip s.y_pred ++ [(r.1, p r.2)] := List.zip_append hlen
  constructor
  · simp [valStep_y, valStep_y_pred, hlen]
  · unfold valStep mismatchCount
    dsimp only
    by_cases hc : p r.2 = r.1
    · rw [hc] at hzip
      simp [hc, hzip, List.countP_append, hinc, mismatchCount]
    · have hne : (r.1 != p r.2) = true := by
        simp [bne_iff_ne]
        exact fun h => hc h.symm
      simp [hc, hzip, List.countP_append, hinc, mismatchCount, hne]

lemma foldl_valStep_inv (c : List String) (p : String → Int) :
    ∀ (rows : List (Int × String)) (s : LoopState),
      loopInv s → loopInv (rows.foldl (valStep c p) s) := by
  intro rows
  induction rows with
  | nil => intro s h; exact h
  | cons r rs ih =>
      intro s h
      exact ih (valStep c p s r) (valStep_preserves_inv c p s r h)

lemma smiley_ne_append (pre t : String) (h : 11 ≤ pre.length) : ":)" ≠ pre ++ t := by
  intro he
  have hlen := congrArg String.length he
  rw [String.length_append] at hlen
  have h2 : (":)" : String).length = 2 := rfl
  omega

/-- C1 (counterexample): the claim that the BERT notebook reads no code and
no data from other subdirectories of the repository or from a shared module
is false: `notebookSelfContained` checks that every file read stays inside
the directory of the notebook and that no `text_classification_benchmarks` module
is imported, and it evaluates to `false` on the notebook. -/
theorem bert_self_contained_refuted : notebookSelfContained = false := by decide

/-- C1 (amended): the BERT notebook is not self-contained: it appends
`../..` (after the external bert path) to `sys.path`, imports `perf_summary`
and `print_perf_summary` from the shared
`text_classification_benchmarks.metrics` module, and reads
`../fastai/val.csv`, `../fastai/test.csv` and `../fastai/classes.txt` from
the directory of the sibling fastai example. -/
theorem bert_reads_sibling_and_shared_module :
    sysPathAppends = ["/Users/d777710/src/bert", "../.."]
    ∧ importedFromPairs =
        [("text_classification_benchmarks.metrics",
          ["perf_summary", "print_perf_summary"])]
    ∧ "../fastai/val.csv" ∈ filesRead
    ∧ "../fastai/test.csv" ∈ filesRead
    ∧ "../fastai/classes.txt" ∈ filesRead := by decide

/-- C2 (counterexample): the claim that the notebook performs exactly the
five step kinds load-config, build-model, convert-features, predict/evaluate,
print-metrics, in that order and nothing else, is false on the notebook: its
processing-step sequence contains data-loading and non-metric printing steps,
and metric summaries are printed before the estimator evaluations run. -/
theorem bert_processing_sequence_refuted : claimC2stated = false := by decide

/-- C2 (amended): the processing steps of the notebook, in source order with
consecutive equal kinds merged, are: config load, label-list load, model and
estimator build, feature conversion, prediction, then interleaved data
loading, conversion, prediction, printing and metric summaries for the
validation and test CSVs, and finally two convert/evaluate/print rounds for
the dev and test example sets; every feature conversion fixes
`max_seq_length` to 128, and the configuration is loaded from
`bert_config.json`. -/
theorem bert_processing_sequence :
    collapseRuns procSeq =
      [.loadConfigK, .loadDataK, .buildModelK, .convertK, .predictEvalK,
       .loadDataK, .printOutK, .loadDataK, .convertK, .predictEvalK,
       .printOutK, .printMetricsK, .loadDataK, .convertK, .predictEvalK,
       .printOutK, .printMetricsK, .loadDataK, .convertK, .predictEvalK,
       .printOutK, .loadDataK, .convertK, .predictEvalK, .printOutK]
    ∧ convertsUse128 = true
    ∧ configFilesLoaded =
        ["/Users/d777710/src/DeepLearning/dltemplate/pretrained_models/bert/uncased_L-12_H-768_A-12/bert_config.json"]
    ∧ resolveNatV (PyVal.var "max_seq_length") = some 128 := by decide

/-- C3: the only methods the notebook invokes on the constructed
`TPUEstimator` are `predict` (three call sites) and `evaluate` (two call
sites); `train` is never called; the single `model_fn_builder` call passes
`num_train_steps=None` and `num_warmup_steps=None`; and no statement of the
notebook defines a function or class or assigns to an attribute of any
object, so the internals of the estimator and of the model are never defined or
modified. -/
theorem bert_estimator_public_api_only :
    estimatorMethods.all (fun m => m == "predict" || m == "evaluate") = true
    ∧ estimatorMethods = ["predict", "predict", "predict", "evaluate", "evaluate"]
    ∧ modelFnTrainArgs = [(some PyVal.pyNone, some PyVal.pyNone)]
    ∧ allStmts.all (fun s => !(mutatesInternals s)) = true := by decide

/-- C4: the notebook imports `modeling`, `run_classifier` and `tokenization`
after appending the external path `/Users/d777710/src/bert` to `sys.path`;
that path is not under the repository root; and the code of the repository (the
notebook) defines no function or class, hence none of the model architecture,
training loop or numerical kernels. -/
theorem bert_model_code_external :
    "modeling" ∈ importedModuleNames
    ∧ "run_classifier" ∈ importedModuleNames
    ∧ "tokenization" ∈ importedModuleNames
    ∧ "/Users/d777710/src/bert" ∈ sysPathAppends
    ∧ pfx repoRoot "/Users/d777710/src/bert" = false
    ∧ definedNames = [] := by decide

/-- C5 (counterexample): the claim that every code cell is straight-line
code with at most simple for-loops is false on the notebook: the validation
loop body contains an `if pred != y_true:` block, so `claimC5stated`
(no definitions, and every cell straight-line up to for-loops with
straight-line bodies) evaluates to `false`. -/
theorem bert_straight_line_refuted : claimC5stated = false := by decide

/-- C5 (amended): the notebook defines no functions or classes, and every
code cell is straight-line code with at most simple for-loops, whose bodies
may additionally contain an `if x != y:` guard with a straight-line body
(the conditional that prints and counts misclassified utterances); no
statement defines or mutates a component. -/
theorem bert_driver_shape :
    definedNames = []
    ∧ bertNotebook.all (fun c => c.all simpleStmtAmended) = true
    ∧ allStmts.all (fun s => !(mutatesInternals s) && !(isSpawnStmt s)) = true := by
  decide

/-- C6: the notebook spawns no threads or processes, imports none of the
Python concurrency modules (its imports are exactly the eight listed
modules), and its cells execute as a single ordered sequence of statements
(the embedding is a list traversed in order, and the loop semantics is a
sequential left fold). -/
theorem bert_no_concurrency :
    allStmts.all (fun s => !(isSpawnStmt s)) = true
    ∧ importedModuleNames =
        ["csv", "numpy", "os", "sys", "tensorflow", "modeling",
         "run_classifier", "tokenization"]
    ∧ concurrencyModules.all (fun m => !(importedModuleNames.contains m)) = true := by
  decide

/-- C7: the validation loop slices its row list by the variable
`max_api_calls` (which resolves to 200) and the test loop by the literal 200,
so for every run and every file contents both loops depend only on the first
200 rows: running either loop on `lines` equals running it on
`lines.take 200`, the accumulated `y` and prediction lists never exceed 200
entries, and hence the performance summaries (functions of the final state)
are unaffected by rows past the 200th. -/
theorem bert_loops_bounded_200 (classes : List String) (predict : String → Int)
    (lines : List (Int × String)) :
    runValLoop classes predict lines = runValLoop classes predict (lines.take 200)
    ∧ runTestLoop classes predict lines = runTestLoop classes predict (lines.take 200)
    ∧ (runValLoop classes predict lines).y.length ≤ 200
    ∧ (runValLoop classes predict lines).y_pred.length ≤ 200
    ∧ (runTestLoop classes predict lines).y.length ≤ 200
    ∧ (runTestLoop classes predict lines).y_pred.length ≤ 200
    ∧ max_api_calls = 200
    ∧ valLoopSlicedByVar = true
    ∧ resolveNatV (PyVal.var "max_api_calls") = some 200
    ∧ testLoopSlicedBy200 = true := by
  refine ⟨?_, ?_, ?_, ?_, ?_, ?_, rfl, by decide, by decide, by decide⟩
  · unfold runValLoop max_api_calls
    rw [List.take_take, min_self]
  · unfold runTestLoop
    rw [List.take_take, min_self]
  · unfold runValLoop
    rw [foldl_valStep_y_length]
    simp [initState, max_api_calls, List.length_take]
  · unfold runValLoop
    rw [foldl_valStep_y_pred_length]
    simp [initState, max_api_calls, List.length_take]
  · unfold runTestLoop
    rw [foldl_testStep_y_length]
    simp [initState, List.length_take]
  · unfold runTestLoop
    rw [foldl_testStep_y_pred_length]
    simp [initState, List.length_take]

/-- Witness for C7 at a concrete input. -/
theorem bert_loops_bounded_200_witness :
    runValLoop ["a"] (fun _ => 1) [(0, "x")] =
      runValLoop ["a"] (fun _ => 1) (List.take 200 [(0, "x")])
    ∧ runTestLoop ["a"] (fun _ => 1) [(0, "x")] =
        runTestLoop ["a"] (fun _ => 1) (List.take 200 [(0, "x")])
    ∧ (runValLoop ["a"] (fun _ => 1) [(0, "x")]).y.length ≤ 200
    ∧ (runValLoop ["a"] (fun _ => 1) [(0, "x")]).y_pred.length ≤ 200
    ∧ (runTestLoop ["a"] (fun _ => 1) [(0, "x")]).y.length ≤ 200
    ∧ (runTestLoop ["a"] (fun _ => 1) [(0, "x")]).y_pred.length ≤ 200
    ∧ max_api_calls = 200
    ∧ valLoopSlicedByVar = true
    ∧ resolveNatV (PyVal.var "max_api_calls") = some 200
    ∧ testLoopSlicedBy200 = true :=
  bert_loops_bounded_200 ["a"] (fun _ => 1) [(0, "x")]

/-- C8: for every prefix of rows the validation loop has processed (each
state at each iteration is the left fold over a prefix), the `y_val` and
`y_val_pred` lists have equal length — exactly one true label and one
prediction are appended per row — and `incorrect` equals the number of
indices at which the two lists differ; in particular this holds for the
final state of the loop. -/
theorem bert_val_loop_incorrect_invariant (classes : List String)
    (predict : String → Int) (rows : List (Int × String)) :
    ((rows.foldl (valStep classes predict) initState).y.length =
        (rows.foldl (valStep classes predict) initState).y_pred.length
      ∧ (rows.foldl (valStep classes predict) initState).incorrect =
          mismatchCount (rows.foldl (valStep classes predict) initState))
    ∧ (runValLoop classes predict rows).incorrect =
        mismatchCount (runValLoop classes predict rows) := by
  constructor
  · exact foldl_valStep_inv classes predict rows initState ⟨rfl, rfl⟩
  · exact (foldl_valStep_inv classes predict (rows.take max_api_calls) initState
      ⟨rfl, rfl⟩).2

/-- Witness for C8 at a concrete input. -/
theorem bert_val_loop_incorrect_invariant_witness :
    ((([((0 : Int), "x")]).foldl (valStep ["a", "b"] (fun _ => 1)) initState).y.length =
        (([((0 : Int), "x")]).foldl (valStep ["a", "b"] (fun _ => 1)) initState).y_pred.length
      ∧ (([((0 : Int), "x")]).foldl (valStep ["a", "b"] (fun _ => 1)) initState).incorrect =
          mismatchCount (([((0 : Int), "x")]).foldl (valStep ["a", "b"] (fun _ => 1)) initState))
    ∧ (runValLoop ["a", "b"] (fun _ => 1) [((0 : Int), "x")]).incorrect =
        mismatchCount (runValLoop ["a", "b"] (fun _ => 1) [((0 : Int), "x")]) :=
  bert_val_loop_incorrect_invariant ["a", "b"] (fun _ => 1) [((0 : Int), "x")]

/-- C9: in the validation loop the details of an utterance are printed if and
only if the prediction differs from the true label, and whenever they are
printed the status line is `:(` — the `:)` branch of the conditional print
is unreachable, since the block is entered only when `pred` differs from
`y_true = int(label)`. -/
theorem bert_val_loop_smiley_unreachable (classes : List String)
    (predict : String → Int) (s : LoopState) (row : Int × String) :
    (stepPrinted classes predict s row ≠ [] ↔ predict row.2 ≠ row.1)
    ∧ ":)" ∉ stepPrinted classes predict s row
    ∧ (predict row.2 ≠ row.1 →
        stepPrinted classes predict s row =
          [ "Utterance: " ++ row.2,
            "Actual   : " ++ classAt classes row.1,
            "Pred     : " ++ classAt classes (predict row.2),
            ":(", "" ]) := by
  by_cases hc : predict row.2 = row.1
  · have hnil : stepPrinted classes predict s row = [] := by
      unfold stepPrinted valStep
      dsimp only
      rw [if_neg (by simp [hc])]
      simp [List.drop_length]
    refine ⟨?_, ?_, ?_⟩
    · rw [hnil]; simp [hc]
    · rw [hnil]; simp
    · intro h; exact absurd hc h
  · have hne : (row.1 == predict row.2) = false := by
      simp only [beq_eq_false_iff_ne, ne_eq]
      exact fun h => hc h.symm
    have hlist : stepPrinted classes predict s row =
        [ "Utterance: " ++ row.2,
          "Actual   : " ++ classAt classes row.1,
          "Pred     : " ++ classAt classes (predict row.2),
          ":(", "" ] := by
      unfold stepPrinted valStep
      dsimp only
      rw [if_pos hc]
      simp only [hne, if_false, Bool.false_eq_true]
      exact List.drop_left _ _
    refine ⟨?_, ?_, fun _ => hlist⟩
    · rw [hlist]; simp [hc]
    · rw [hlist]
      intro hmem
      simp only [List.mem_cons, List.not_mem_nil, or_false] at hmem
      rcases hmem with h1 | h1 | h1 | h1 | h1
      · exact smiley_ne_append "Utterance: " row.2 (by decide) h1
      · exact smiley_ne_append "Actual   : " (classAt classes row.1) (by decide) h1
      · exact smiley_ne_append "Pred     : " (classAt classes (predict row.2)) (by decide) h1
      · exact absurd h1 (by decide)
      · exact absurd h1 (by decide)

/-- Witness for C9 at a concrete input (a misclassified row: prediction 1,
true label 0). -/
theorem bert_val_loop_smiley_unreachable_witness :
    (stepPrinted ["a", "b"] (fun _ => 1) initState ((0 : Int), "x") ≠ [] ↔
      (fun _ => (1 : Int)) "x" ≠ (0 : Int))
    ∧ ":)" ∉ stepPrinted ["a", "b"] (fun _ => 1) initState ((0 : Int), "x")
    ∧ ((fun _ => (1 : Int)) "x" ≠ (0 : Int) →
        stepPrinted ["a", "b"] (fun _ => 1) initState ((0 : Int), "x") =
          [ "Utterance: " ++ "x",
            "Actual   : " ++ classAt ["a", "b"] (0 : Int),
            "Pred     : " ++ classAt ["a", "b"] ((fun _ => (1 : Int)) "x"),
            ":(", "" ]) :=
  bert_val_loop_smiley_unreachable ["a", "b"] (fun _ => 1) initState ((0 : Int), "x")
